import Mathlib

/-!
# Verification of the BoilerplateGuiTool invoice pipeline core

This file is a shallow embedding, in Lean 4, of the pure core of the
invoice-processing pipeline (`src/processes/P03_shared_functions.py`,
`src/processes/P06_class_items.py`, `src/processes/P04_static_lists.py`),
together with theorems settling the frozen claims about it.

Modelling conventions:
* Python `datetime` values are modelled by the `Date` structure (the time
  component is always midnight in the code paths under study, so only the
  calendar date is kept).  `datetime.strptime` for the four formats the code
  uses is embedded as an explicit backtracking parser that mirrors the
  regular expressions CPython's `_strptime` builds for those formats
  (including single-digit and space-padded day/month forms and
  case-insensitive month names), followed by the calendar-validity check
  performed by the `datetime` constructor.
* Python `float` currency arithmetic is modelled with `ℚ`; non-finite
  floats are modelled by a dedicated constructor where they can arise.
* Folders are modelled as the list of file names they contain;
  `Path.exists` becomes list membership.
* Python dictionaries keyed by strings are modelled as association lists.
-/

namespace BGT

/-! ## Decimal rendering of natural numbers (Python `str`/format of an int)

`natToStr` renders a natural number in decimal, exactly as Python's string
conversion of a non-negative integer does.  It is written with an explicit
fuel argument (structural recursion) so that it evaluates by kernel
reduction; `natToStrAux_fuel` shows the fuel is irrelevant once sufficient.
-/

/-- The decimal digit character for `d` (`0 ↦ '0'`, …, `9 ↦ '9'`). -/
def digitChr (d : Nat) : Char := Char.ofNat (48 + d)

/-- Auxiliary decimal renderer; `fuel` bounds the number of digits. -/
def natToStrAux : Nat → Nat → List Char
  | 0, _ => []
  | fuel + 1, n =>
    if n < 10 then [digitChr n]
    else natToStrAux fuel (n / 10) ++ [digitChr (n % 10)]

/-- Decimal rendering of a natural number (Python `str(n)` for `n ≥ 0`). -/
def natToStr (n : Nat) : String := String.mk (natToStrAux (n + 1) n)

/-- Zero-padding to two digits: Python's `%02d` (as in `strftime` `%m`, `%d`,
`%y`). -/
def pad2 (n : Nat) : String :=
  if n < 10 then String.mk ('0' :: natToStrAux (n + 1) n) else natToStr n

/-- Zero-padding to four digits: Python's `strftime` `%Y` (documented as
`0001, …, 9999`). -/
def pad4 (n : Nat) : String :=
  if n < 10 then "000" ++ natToStr n
  else if n < 100 then "00" ++ natToStr n
  else if n < 1000 then "0" ++ natToStr n
  else natToStr n

/-! ## Calendar dates -/

/-- A calendar date, the projection of a Python `datetime` used by this
program (its time component is always midnight here). -/
structure Date where
  year : Nat
  month : Nat
  day : Nat
deriving DecidableEq, Repr

/-- Gregorian leap-year rule, as used by Python's `datetime`. -/
def isLeapYear (y : Nat) : Bool :=
  y % 4 == 0 && (y % 100 != 0 || y % 400 == 0)

/-- Number of days in a month of a given year (Python `calendar`/`datetime`
rule). -/
def daysInMonth (y m : Nat) : Nat :=
  if m = 2 then (if isLeapYear y then 29 else 28)
  else if m = 4 ∨ m = 6 ∨ m = 9 ∨ m = 11 then 30
  else 31

/-- Validity of a calendar date: exactly the check made by the `datetime`
constructor (which also requires `year ≥ 1`). -/
def ValidDate (d : Date) : Prop :=
  1 ≤ d.year ∧ 1 ≤ d.month ∧ d.month ≤ 12 ∧ 1 ≤ d.day ∧ d.day ≤ daysInMonth d.year d.month

instance (d : Date) : Decidable (ValidDate d) := by
  unfold ValidDate; infer_instance

/-- The day after `d` (calendar successor). -/
def nextDay (d : Date) : Date :=
  if d.day < daysInMonth d.year d.month then ⟨d.year, d.month, d.day + 1⟩
  else if d.month < 12 then ⟨d.year, d.month + 1, 1⟩
  else ⟨d.year + 1, 1, 1⟩

/-- The day before `d` (calendar predecessor). -/
def prevDay (d : Date) : Date :=
  if 1 < d.day then ⟨d.year, d.month, d.day - 1⟩
  else if 1 < d.month then ⟨d.year, d.month - 1, daysInMonth d.year (d.month - 1)⟩
  else ⟨d.year - 1, 12, 31⟩

/-- `d + timedelta(days := n)`. -/
def addDays (d : Date) : Nat → Date
  | 0 => d
  | n + 1 => addDays (nextDay d) n

/-- `d - timedelta(days := n)`. -/
def subDays (d : Date) : Nat → Date
  | 0 => d
  | n + 1 => subDays (prevDay d) n

/-- Chronological strict order on dates (`datetime.__lt__`, restricted to
midnight values: lexicographic on year, month, day). -/
def dateLt (a b : Date) : Prop :=
  a.year < b.year ∨ (a.year = b.year ∧
    (a.month < b.month ∨ (a.month = b.month ∧ a.day < b.day)))

instance (a b : Date) : Decidable (dateLt a b) := by
  unfold dateLt; infer_instance

/-! ## `strftime` embeddings (only the formats the program uses) -/

/-- `strftime("%Y-%m-%d")`. -/
def fmtISO (d : Date) : String :=
  pad4 d.year ++ "-" ++ pad2 d.month ++ "-" ++ pad2 d.day

/-- `strftime("%Y-%m")`. -/
def fmtYM (d : Date) : String := pad4 d.year ++ "-" ++ pad2 d.month

/-- `strftime("%y.%m.%d")`. -/
def fmtYYMMDD (d : Date) : String :=
  pad2 (d.year % 100) ++ "." ++ pad2 d.month ++ "." ++ pad2 d.day

/-- `strftime("%m/%y")`. -/
def fmtMMYY (d : Date) : String := pad2 d.month ++ "/" ++ pad2 (d.year % 100)

/-! ## `strptime` embedding

CPython's `_strptime` compiles a format string into a regular expression and
requires the match to start at position 0 and consume the whole input
("unconverted data remains" otherwise).  The field patterns relevant here:

* `%Y` ↦ `\d\d\d\d` (exactly four digits);
* `%m` ↦ `1[0-2]|0[1-9]|[1-9]`;
* `%d` ↦ `3[01]|[12]\d|0[1-9]|[1-9]| [1-9]`;
* `%b` ↦ the twelve abbreviated month names, case-insensitively;
* `%B` ↦ the twelve full month names, case-insensitively.

The candidate functions below enumerate, in the regex's alternation order,
the possible `(value, rest-of-input)` pairs for a field; the format parsers
take the first candidate path that lets the whole format match the whole
input.  For these four formats this coincides with CPython's behaviour
(a shorter day/month alternative is always followed by a literal `-` or `/`,
so regex preference never disagrees with whole-input consumption).
A successful syntactic match is then subjected to the `datetime` validity
check; a failure there raises `ValueError`, which the caller's loop treats
exactly like a non-match. -/

/-- Is `c` an ASCII decimal digit? -/
def isDigitC (c : Char) : Bool := 48 ≤ c.toNat && c.toNat ≤ 57

/-- Numeric value of a digit character. -/
def digVal (c : Char) : Nat := c.toNat - 48

/-- ASCII lower-casing (the effect of `re.IGNORECASE` on the inputs the
program matches). -/
def asciiLower (c : Char) : Char :=
  if 65 ≤ c.toNat ∧ c.toNat ≤ 90 then Char.ofNat (c.toNat + 32) else c

/-- Candidates for `%Y`: exactly four digits. -/
def yearCands : List Char → List (Nat × List Char)
  | c1 :: c2 :: c3 :: c4 :: rest =>
    if isDigitC c1 && isDigitC c2 && isDigitC c3 && isDigitC c4 then
      [(digVal c1 * 1000 + digVal c2 * 100 + digVal c3 * 10 + digVal c4, rest)]
    else []
  | _ => []

/-- Candidates for `%m` (`1[0-2]|0[1-9]|[1-9]`), in alternation order. -/
def monthCands : List Char → List (Nat × List Char)
  | c1 :: c2 :: rest =>
    (if c1 = '1' && (c2 = '0' || c2 = '1' || c2 = '2') then
      [(10 + digVal c2, rest)] else []) ++
    (if c1 = '0' && (isDigitC c2 && c2 ≠ '0') then [(digVal c2, rest)] else []) ++
    (if isDigitC c1 && c1 ≠ '0' then [(digVal c1, c2 :: rest)] else [])
  | [c1] => if isDigitC c1 && c1 ≠ '0' then [(digVal c1, [])] else []
  | [] => []

/-- Candidates for `%d` (`3[01]|[12]\d|0[1-9]|[1-9]| [1-9]`), in alternation
order. -/
def dayCands : List Char → List (Nat × List Char)
  | c1 :: c2 :: rest =>
    (if c1 = '3' && (c2 = '0' || c2 = '1') then [(30 + digVal c2, rest)] else []) ++
    (if (c1 = '1' || c1 = '2') && isDigitC c2 then
      [(10 * digVal c1 + digVal c2, rest)] else []) ++
    (if c1 = '0' && (isDigitC c2 && c2 ≠ '0') then [(digVal c2, rest)] else []) ++
    (if isDigitC c1 && c1 ≠ '0' then [(digVal c1, c2 :: rest)] else []) ++
    (if c1 = ' ' && (isDigitC c2 && c2 ≠ '0') then [(digVal c2, rest)] else [])
  | [c1] => if isDigitC c1 && c1 ≠ '0' then [(digVal c1, [])] else []
  | [] => []

/-- Case-insensitively strip the (lower-case) pattern `p` from the front of
the text; returns the rest on success. -/
def stripLower : List Char → List Char → Option (List Char)
  | [], t => some t
  | _ :: _, [] => none
  | p :: ps, c :: cs => if asciiLower c = p then stripLower ps cs else none

/-- Abbreviated month names for `%b` (C locale). -/
def abbrMonths : List (Nat × List Char) :=
  [(1, "jan".data), (2, "feb".data), (3, "mar".data), (4, "apr".data),
   (5, "may".data), (6, "jun".data), (7, "jul".data), (8, "aug".data),
   (9, "sep".data), (10, "oct".data), (11, "nov".data), (12, "dec".data)]

/-- Full month names for `%B` (C locale), in the longest-first order in which
`_strptime` lists them; no name is a prefix of another, so at any position at
most one matches. -/
def fullMonths : List (Nat × List Char) :=
  [(9, "september".data), (2, "february".data), (11, "november".data),
   (12, "december".data), (1, "january".data), (10, "october".data),
   (8, "august".data), (3, "march".data), (4, "april".data),
   (6, "june".data), (7, "july".data), (5, "may".data)]

/-- Candidates for a month-name field drawn from table `tbl`. -/
def nameCands (tbl : List (Nat × List Char)) (l : List Char) :
    List (Nat × List Char) :=
  tbl.filterMap fun p => (stripLower p.2 l).map fun r => (p.1, r)

/-- Syntactic match of `"%Y-%m-%d"` against the whole input. -/
def parseYMD (l : List Char) : Option Date :=
  (yearCands l).findSome? fun py =>
    match py.2 with
    | '-' :: r2 =>
      (monthCands r2).findSome? fun pm =>
        match pm.2 with
        | '-' :: r4 =>
          (dayCands r4).findSome? fun pd =>
            if pd.2 = [] then some ⟨py.1, pm.1, pd.1⟩ else none
        | _ => none
    | _ => none

/-- Syntactic match of `"%d/%m/%Y"` against the whole input. -/
def parseDMY (l : List Char) : Option Date :=
  (dayCands l).findSome? fun pd =>
    match pd.2 with
    | '/' :: r2 =>
      (monthCands r2).findSome? fun pm =>
        match pm.2 with
        | '/' :: r4 =>
          (yearCands r4).findSome? fun py =>
            if py.2 = [] then some ⟨py.1, pm.1, pd.1⟩ else none
        | _ => none
    | _ => none

/-- Syntactic match of `"%d-%b-%Y"` (resp. `"%d-%B-%Y"` via `tbl`) against
the whole input. -/
def parseDNameY (tbl : List (Nat × List Char)) (l : List Char) : Option Date :=
  (dayCands l).findSome? fun pd =>
    match pd.2 with
    | '-' :: r2 =>
      (nameCands tbl r2).findSome? fun pm =>
        match pm.2 with
        | '-' :: r4 =>
          (yearCands r4).findSome? fun py =>
            if py.2 = [] then some ⟨py.1, pm.1, pd.1⟩ else none
        | _ => none
    | _ => none

/-- `datetime.strptime(s, fmt)` for one format: syntactic regex match plus
the `datetime` constructor's validity check. -/
def strptimeWith (p : List Char → Option Date) (s : String) : Option Date :=
  (p s.data).bind fun d => if ValidDate d then some d else none

/-- `datetime.strptime(s, "%Y-%m-%d")`. -/
def strptimeISO (s : String) : Option Date := strptimeWith parseYMD s

/-- The constructor's dance over the format list
`("%Y-%m-%d", "%d/%m/%Y", "%d-%b-%Y", "%d-%B-%Y")`: try each in order,
stopping at the first success. -/
def tryParseInvoiceDate (s : String) : Option Date :=
  (strptimeWith parseYMD s).orElse fun _ =>
    (strptimeWith parseDMY s).orElse fun _ =>
      (strptimeWith (parseDNameY abbrMonths) s).orElse fun _ =>
        strptimeWith (parseDNameY fullMonths) s

/-! ## Small Python string operations -/

/-- Python `s.startswith(pre)`. -/
def pyStartsWith (s pre : String) : Bool := pre.data.isPrefixOf s.data

/-- Python whitespace characters stripped by `str.strip()` (ASCII range;
the inputs of this program contain no exotic Unicode spaces). -/
def isPySpace (c : Char) : Bool :=
  c = ' ' || c = '\t' || c = '\n' || c = '\r' || c.toNat = 11 || c.toNat = 12

/-- Python `str.strip()` on a character list. -/
def pyStrip (l : List Char) : List Char :=
  ((l.dropWhile isPySpace).reverse.dropWhile isPySpace).reverse

/-- Python `s.replace(c, "")` for a single-character needle: delete every
occurrence of `c`. -/
def removeChar (c : Char) (l : List Char) : List Char := l.filter (· ≠ c)

/-! ## Vendor constants (`P04_static_lists.VENDOR_METADATA`, exposed as
class-level attributes of `InvoiceMetadata`) -/

def short_vendor_name : String := "Blakemore"

def vendor_name : String := "A F Blakemore & Son Ltd"

def vendor_address : String :=
  "Long Acre Industrial Estate, Rosehill, Willenhall, WV13 2JP"

def vendor_vat_reg_no : String := "431 3902 80"

def vendor_awrs : String := "XEAW00000120927"

def vendor_customer_no : String := "26244"

/-! ## `InvoiceMetadata` (`P06_class_items.py`) -/

/-- The per-instance state of a Python `InvoiceMetadata` object.  The
spec's data model types `invoice_no`, `po_reference` and `invoice_type` as
strings; `original_invoice_date` is `None` or a parsed `datetime`. -/
structure InvoiceMetadata where
  invoice_no : String
  po_reference : String
  invoice_type : String
  original_invoice_date : Option Date
  invoice_date : String
  due_date : String
  po_month : String
deriving DecidableEq, Repr

/-- `InvoiceMetadata.__init__`: try the four accepted formats in order,
stopping at the first success; on success derive the canonical ISO date,
the due date (+7 days) and the `YYYY-MM` month tag; on total failure fall
into the degraded state with the `"UNKNOWN"` sentinels. -/
def InvoiceMetadata.init (invoice_no invoice_date po_reference invoice_type :
    String) : InvoiceMetadata :=
  match tryParseInvoiceDate invoice_date with
  | some d =>
    { invoice_no := invoice_no, po_reference := po_reference,
      invoice_type := invoice_type, original_invoice_date := some d,
      invoice_date := fmtISO d, due_date := fmtISO (addDays d 7),
      po_month := fmtYM d }
  | none =>
    { invoice_no := invoice_no, po_reference := po_reference,
      invoice_type := invoice_type, original_invoice_date := none,
      invoice_date := "UNKNOWN", due_date := "UNKNOWN", po_month := "UNKNOWN" }

/-- `datetime(today.year, today.month, 1)`. -/
def firstOfMonth (today : Date) : Date := ⟨today.year, today.month, 1⟩

/-- `InvoiceMetadata.adjust_invoice_date_if_overdue`.  `today` is the
value of `datetime.today()` at the call, made an explicit parameter.
The single `try` block's only failure point on this state space is the
re-parse of `invoice_date` (the first statement of the block); on that
failure the handler sets `po_month := "UNKNOWN"` and leaves the rest of
the object as it was. -/
def InvoiceMetadata.adjust_invoice_date_if_overdue (today : Date)
    (m : InvoiceMetadata) : InvoiceMetadata :=
  let first_of_month := firstOfMonth today
  let date_threshold := subDays first_of_month 3
  match strptimeISO m.invoice_date with
  | some d =>
    let m1 := { m with po_month := fmtMMYY d }
    if dateLt d date_threshold then
      let m2 := { m1 with invoice_date := fmtISO first_of_month }
      if pyStartsWith m2.po_reference "GUK" then
        { m2 with po_reference := m2.po_month ++ " invoice\n" ++ m2.po_reference }
      else
        { m2 with po_reference := m2.po_month ++ " invoice" }
    else m1
  | none => { m with po_month := "UNKNOWN" }

/-! ## `MFCNames` -/

/-- One location record; every attribute comes from `row.get(...)`, hence is
`None` when the column is missing. -/
structure MFCNames where
  id : Option String
  mfc_name : Option String
  friendly_mfc_name : Option String
  xero_name : Option String
  location_address : Option String
  postcode : Option String
  morrisons_id : Option String
  morrisons_postcode : Option String
  blakemore_postcode : Option String
  wholegood_postcode : Option String
  htdrinks_postcode : Option String
  on_the_rocks_postcode : Option String
deriving DecidableEq, Repr

/-- `MFCNames.__init__(row)`; the row dictionary is modelled as an
association list with `row.get` as `List.lookup`.  Note the source reads
the misspelled key `"WHOLEOOD_POSTCODE"` for the `wholegood_postcode`
attribute — this embedding reproduces that faithfully. -/
def MFCNames.init (row : List (String × String)) : MFCNames :=
  { id := row.lookup "ID",
    mfc_name := row.lookup "LOCATION_NAME",
    friendly_mfc_name := row.lookup "FRIENDLY_LOCATION_NAME",
    xero_name := row.lookup "XERO_NAME",
    location_address := row.lookup "LOCATION_ADDRESS",
    postcode := row.lookup "POSTCODE",
    morrisons_id := row.lookup "MORRISONS_ID",
    morrisons_postcode := row.lookup "MORRISONS_POSTCODE",
    blakemore_postcode := row.lookup "BLAKEMORE_POSTCODE",
    wholegood_postcode := row.lookup "WHOLEOOD_POSTCODE",
    htdrinks_postcode := row.lookup "HTDRINKS_POSTCODE",
    on_the_rocks_postcode := row.lookup "ONTHEROCKS_POSTCODE" }

/-- Python truthiness of an optional string (`None` and `""` are falsy). -/
def truthy : Option String → Bool
  | some s => s ≠ ""
  | none => false

/-- `MFCNames.is_valid`: `all([...])` over the four key fields. -/
def MFCNames.is_valid (x : MFCNames) : Bool :=
  truthy x.mfc_name && truthy x.friendly_mfc_name &&
    truthy x.xero_name && truthy x.postcode

/-- Python `x or default` for the optional-string attributes used in
filename generation. -/
def orDefault (v : Option String) (dflt : String) : String :=
  match v with
  | some s => if s = "" then dflt else s
  | none => dflt

/-! ## `InvoiceFinancials`

Monetary amounts are modelled with `ℚ` (Python `float` currency values;
the values this program manipulates are exact two-decimal amounts). -/

structure InvoiceFinancials where
  net_0 : ℚ := 0
  vat_0 : ℚ := 0
  net_5 : ℚ := 0
  vat_5 : ℚ := 0
  net_20 : ℚ := 0
  vat_20 : ℚ := 0
  expected_net_total : Option ℚ := none
  expected_vat_total : Option ℚ := none
  expected_gross_total : Option ℚ := none
deriving DecidableEq, Repr

def InvoiceFinancials.gross_0 (f : InvoiceFinancials) : ℚ := f.net_0 + f.vat_0

def InvoiceFinancials.gross_5 (f : InvoiceFinancials) : ℚ := f.net_5 + f.vat_5

def InvoiceFinancials.gross_20 (f : InvoiceFinancials) : ℚ := f.net_20 + f.vat_20

def InvoiceFinancials.total_net (f : InvoiceFinancials) : ℚ :=
  f.net_0 + f.net_5 + f.net_20

def InvoiceFinancials.total_vat (f : InvoiceFinancials) : ℚ :=
  f.vat_0 + f.vat_5 + f.vat_20

def InvoiceFinancials.total_gross (f : InvoiceFinancials) : ℚ :=
  f.total_net + f.total_vat

/-- The dictionary returned by `validate_totals`: each key is present
exactly when the corresponding expected value was supplied. -/
structure TotalsCheck where
  net_match : Option Bool
  vat_match : Option Bool
  gross_match : Option Bool
deriving DecidableEq, Repr

/-- `InvoiceFinancials.validate_totals(tolerance)`. -/
def InvoiceFinancials.validate_totals (f : InvoiceFinancials)
    (tolerance : ℚ) : TotalsCheck :=
  { net_match := f.expected_net_total.map fun e =>
      decide (|f.total_net - e| ≤ tolerance),
    vat_match := f.expected_vat_total.map fun e =>
      decide (|f.total_vat - e| ≤ tolerance),
    gross_match := f.expected_gross_total.map fun e =>
      decide (|f.total_gross - e| ≤ tolerance) }

/-- `InvoiceFinancials.is_valid`: `all(results.values()) if results else
True`, with the default tolerance `0.01`. -/
def InvoiceFinancials.is_valid (f : InvoiceFinancials) : Bool :=
  let r := f.validate_totals (1 / 100)
  r.net_match.getD true && r.vat_match.getD true && r.gross_match.getD true

/-! ## Currency formatting: Python `f"{x:.2f}"` on the exact values -/

/-- Round to the nearest integer, ties to even (the rounding used by
Python's fixed-point float formatting, applied here to the exact value). -/
def roundHalfEven (x : ℚ) : ℤ :=
  let f := Rat.floor x
  let r := x - (f : ℚ)
  if r < 1 / 2 then f
  else if 1 / 2 < r then f + 1
  else if f % 2 = 0 then f else f + 1

/-- `f"{q:.2f}"` (without currency symbol). -/
def fmtFixed2 (q : ℚ) : String :=
  let n := (roundHalfEven (|q| * 100)).toNat
  (if q < 0 then "-" else "") ++ natToStr (n / 100) ++ "." ++ pad2 (n % 100)

/-- `InvoiceMetadata.generate_standard_filename(mfc, financials)`. -/
def InvoiceMetadata.generate_standard_filename (m : InvoiceMetadata)
    (mfc : MFCNames) (financials : InvoiceFinancials) : String :=
  let date_part :=
    match m.original_invoice_date with
    | some d => fmtYYMMDD d
    | none =>
      match strptimeISO m.invoice_date with
      | some d => fmtYYMMDD d
      | none => "unknown-date"
  let vendor_part := short_vendor_name
  let mfc_part := orDefault mfc.friendly_mfc_name "UnknownMFC"
  let invoice_part := if m.invoice_no = "" then "UnknownInvoice" else m.invoice_no
  let amount_part := "£" ++ fmtFixed2 financials.total_gross
  let po_part :=
    if pyStartsWith m.po_reference "GUK" then " - " ++ m.po_reference else ""
  date_part ++ " - " ++ vendor_part ++ " - " ++ mfc_part ++ " - " ++
    invoice_part ++ po_part ++ " - " ++ amount_part

/-! ## `clean_currency` (`P03_shared_functions.py`)

The argument can be an int/float, a string, `None`, or anything else; the
result is a Python float.  Finite floats are modelled with `ℚ`; the
non-finite floats `float` can produce from strings get their own
constructors. -/

/-- A Python value passed to `clean_currency`. -/
inductive PyVal where
  | num (q : ℚ)
  | str (s : String)
  | pynone
  | other
deriving DecidableEq, Repr

/-- A Python float result. -/
inductive PyFloat where
  | finite (q : ℚ)
  | inf
  | ninf
  | nan
deriving DecidableEq, Repr

/-- Parse a nonempty underscore-grouped digit run (Python numeric-literal
rule: single underscores between digits).  Returns the accumulated value,
the digit count, and the rest.  Consumption stops before any `'_'` not
followed by a digit. -/
def udAux : List Char → Nat → Nat → Nat × Nat × List Char
  | '_' :: c :: rest, acc, len =>
    if isDigitC c then udAux rest (10 * acc + digVal c) (len + 1)
    else (acc, len, '_' :: c :: rest)
  | c :: rest, acc, len =>
    if isDigitC c then udAux rest (10 * acc + digVal c) (len + 1)
    else (acc, len, c :: rest)
  | [], acc, len => (acc, len, [])

/-- Parse the optional exponent suffix and require the input end there. -/
def parseExpTail (q : ℚ) : List Char → Option ℚ
  | [] => some q
  | e :: rest =>
    if e = 'e' ∨ e = 'E' then
      let (eneg, r1) :=
        match rest with
        | '+' :: r => (false, r)
        | '-' :: r => (true, r)
        | r => (false, r)
      match r1 with
      | c :: _ =>
        if isDigitC c then
          match udAux r1 0 0 with
          | (ev, _, []) =>
            some (if eneg then q / 10 ^ ev else q * 10 ^ ev)
          | _ => none
        else none
      | [] => none
    else none

/-- Python `float(s)` on an already-stripped string: optional sign,
then `inf`/`infinity`/`nan` (case-insensitive) or a decimal literal with
optional fraction and exponent, consuming the whole input. -/
def pyFloatParse (l : List Char) : Option PyFloat :=
  let (neg, l1) :=
    match l with
    | '+' :: r => (false, r)
    | '-' :: r => (true, r)
    | r => (false, r)
  let low := l1.map asciiLower
  if low = "inf".data ∨ low = "infinity".data then
    some (if neg then .ninf else .inf)
  else if low = "nan".data then some .nan
  else
    let mantissa : Option (ℚ × List Char) :=
      match l1 with
      | '.' :: r2 =>
        match r2 with
        | c :: _ =>
          if isDigitC c then
            match udAux r2 0 0 with
            | (fv, flen, r3) => some ((fv : ℚ) / 10 ^ flen, r3)
          else none
        | [] => none
      | c :: _ =>
        if isDigitC c then
          match udAux l1 0 0 with
          | (iv, _, r1') =>
            match r1' with
            | '.' :: r2 =>
              match r2 with
              | c2 :: _ =>
                if isDigitC c2 then
                  match udAux r2 0 0 with
                  | (fv, flen, r3) => some ((iv : ℚ) + (fv : ℚ) / 10 ^ flen, r3)
                else some ((iv : ℚ), r2)
              | [] => some ((iv : ℚ), [])
            | _ => some ((iv : ℚ), r1')
        else none
      | [] => none
    match mantissa with
    | some (q, rest) =>
      (parseExpTail q rest).map fun v => .finite (if neg then -v else v)
    | none => none

/-- `clean_currency`: numeric input passes through; `None`, the empty
string and non-string non-numeric input give `0.0`; a string is cleaned of
`£` and `,` and stripped, then parsed; a parse failure gives `0.0` (with a
console warning). -/
def clean_currency : PyVal → PyFloat
  | .num q => .finite q
  | .pynone => .finite 0
  | .other => .finite 0
  | .str s =>
    if s = "" then .finite 0
    else
      match pyFloatParse (pyStrip (removeChar ',' (removeChar '£' s.data))) with
      | some v => v
      | none => .finite 0

/-! ## `check_existing_filename` (`P03_shared_functions.py`)

Folders are modelled as the list of file names they contain; the
`while`-loop that searches for a free duplicate name is embedded as a
bounded linear search whose bound is proved sufficient below
(`findFreeAux_spec` and `exists_dupName_free`): the loop returns the first
name in the sequence `"Duplicate - {base}", "Duplicate (2) - {base}",
"Duplicate (3) - {base}", …` that is not present in the working folder. -/

/-- The `n`-th candidate name tried by the duplicate-resolution loop:
index `0` is `"Duplicate - {base}"`, index `k+1` is
`"Duplicate ({k+2}) - {base}"`. -/
def dupName (base : String) : Nat → String
  | 0 => "Duplicate - " ++ base
  | k + 1 => "Duplicate (" ++ natToStr (k + 2) ++ ") - " ++ base

/-- Linear search for the first free candidate index, starting at `n` with
the given fuel.  With fuel `current.length + 1` the fuel never runs out
(see `findFreeAux_spec`). -/
def findFreeAux (current : List String) (base : String) : Nat → Nat → Nat
  | n, 0 => n
  | n, fuel + 1 =>
    if dupName base n ∈ current then findFreeAux current base (n + 1) fuel
    else n

/-- The body of the duplicate branch: the `while` loop of the source. -/
def resolveDuplicate (current : List String) (base : String) : String :=
  dupName base (findFreeAux current base 0 (current.length + 1))

/-- `check_existing_filename(metadata, financials, matched_mfc,
destination_folder, current_folder)`. -/
def check_existing_filename (metadata : InvoiceMetadata)
    (financials : InvoiceFinancials) (matched_mfc : MFCNames)
    (destination_folder current_folder : List String) : String × Bool :=
  let base_filename :=
    metadata.generate_standard_filename matched_mfc financials ++ ".pdf"
  if base_filename ∈ destination_folder then
    (resolveDuplicate current_folder base_filename, true)
  else
    (base_filename, false)

/-! ## A regular-expression fragment and `extract_field`

`extract_field` compiles its pattern with `re` and calls
`re.search(..., re.IGNORECASE).group(1)`.  The fragment embedded here —
literal characters, escaped literal punctuation, `(...)` groups and `|`
alternation, matched with leftmost search and left-preferent backtracking —
is exactly Python's semantics for patterns built from those constructs;
patterns using anything else are mapped to a distinguished `unmodeled`
verdict about which no claim is made. -/

/-- Regular expressions of the modelled fragment. -/
inductive Reg where
  | eps
  | ch (c : Char)
  | seq (r1 r2 : Reg)
  | alt (r1 r2 : Reg)
  | grp (i : Nat) (r : Reg)
deriving DecidableEq, Repr

/-- All ways `r` can match `t` starting at position `p`, as
`(end-position, captured group spans)` pairs, listed in the backtracking
engine's preference order (alternation tries the left branch first).
Matching is case-insensitive (`re.IGNORECASE`). -/
def mtchAll : Reg → List Char → Nat → List (Nat × List (Nat × Nat × Nat))
  | .eps, _, p => [(p, [])]
  | .ch c, t, p =>
    match t[p]? with
    | some c' => if asciiLower c' = asciiLower c then [(p + 1, [])] else []
    | none => []
  | .seq r1 r2, t, p =>
    (mtchAll r1 t p).flatMap fun q1 =>
      (mtchAll r2 t q1.1).map fun q2 => (q2.1, q1.2 ++ q2.2)
  | .alt r1 r2, t, p => mtchAll r1 t p ++ mtchAll r2 t p
  | .grp i r, t, p => (mtchAll r t p).map fun q => (q.1, q.2 ++ [(i, p, q.1)])

/-- Try match positions `p, p+1, …` (the scan of `re.search`). -/
def searchFrom (r : Reg) (t : List Char) :
    Nat → Nat → Option (Nat × List (Nat × Nat × Nat))
  | _, 0 => none
  | p, fuel + 1 =>
    match mtchAll r t p with
    | res :: _ => some res
    | [] => searchFrom r t (p + 1) fuel

/-- `re.search(r, t, re.IGNORECASE)`: the first match at the leftmost
possible start position. -/
def reSearch (r : Reg) (t : List Char) :
    Option (Nat × List (Nat × Nat × Nat)) :=
  searchFrom r t 0 (t.length + 1)

/-- `match.group(i)`'s span: the last span captured by group `i`, if any. -/
def capLookup (caps : List (Nat × Nat × Nat)) (i : Nat) : Option (Nat × Nat) :=
  (caps.reverse.find? fun c => c.1 = i).map fun c => c.2

/-- Verdicts of the pattern compiler: a `Reg` with its group count, a
genuine `re.error`, or a pattern outside the modelled fragment. -/
inductive CompErr where
  | invalid
  | unsupported
deriving DecidableEq, Repr

/-- Regex metacharacters outside the modelled fragment. -/
def isUnsupportedMeta (c : Char) : Bool :=
  c = '*' || c = '+' || c = '?' || c = '{' || c = '}' ||
  c = '[' || c = ']' || c = '.' || c = '^' || c = '$'

mutual

/-- Parse a concatenation (stops at `')'`, `'|'` or the end); `gi` is the
running count of groups opened so far (Python numbers groups by the order
of their opening parentheses). -/
def parseSeqF : Nat → Nat → List Char → Except CompErr (Reg × Nat × List Char)
  | 0, _, _ => .error .unsupported
  | _ + 1, gi, [] => .ok (.eps, gi, [])
  | fuel + 1, gi, c :: rest =>
    if c = ')' ∨ c = '|' then .ok (.eps, gi, c :: rest)
    else if isUnsupportedMeta c then .error .unsupported
    else if c = '(' then
      match parseAltF fuel (gi + 1) rest with
      | .ok (r, gi', rest') =>
        match rest' with
        | ')' :: rest'' =>
          match parseSeqF fuel gi' rest'' with
          | .ok (r2, gi'', rest3) => .ok (.seq (.grp (gi + 1) r) r2, gi'', rest3)
          | .error e => .error e
        | _ => .error .invalid
      | .error e => .error e
    else if c = '\\' then
      match rest with
      | [] => .error .invalid
      | e :: rest' =>
        if e.isAlphanum then .error .unsupported
        else
          match parseSeqF fuel gi rest' with
          | .ok (r2, gi', rest'') => .ok (.seq (.ch e) r2, gi', rest'')
          | .error err => .error err
    else
      match parseSeqF fuel gi rest with
      | .ok (r2, gi', rest') => .ok (.seq (.ch c) r2, gi', rest')
      | .error e => .error e

/-- Parse an alternation. -/
def parseAltF : Nat → Nat → List Char → Except CompErr (Reg × Nat × List Char)
  | 0, _, _ => .error .unsupported
  | fuel + 1, gi, l =>
    match parseSeqF fuel gi l with
    | .ok (r, gi', rest) =>
      match rest with
      | '|' :: rest' =>
        match parseAltF fuel gi' rest' with
        | .ok (r2, gi'', rest'') => .ok (.alt r r2, gi'', rest'')
        | .error e => .error e
      | _ => .ok (r, gi', rest)
    | .error e => .error e

end

/-- `re.compile` over the modelled fragment, returning the regex and its
number of capture groups. -/
def compilePat (s : String) : Except CompErr (Reg × Nat) :=
  match parseAltF (2 * s.length + 4) 0 s.data with
  | .ok (r, gi, []) => .ok (r, gi)
  | .ok _ => .error .invalid
  | .error e => .error e

/-- Python exceptions `extract_field` can let escape, plus the `unmodeled`
verdict for patterns outside the embedded regex fragment. -/
inductive PyErr where
  | reError
  | indexError
  | attributeError
  | unmodeled
deriving DecidableEq, Repr

/-- `extract_field(text, field_pattern, patterns)`.  `.ok none` is the
"no match" result; `.error …` is an escaping exception:
`re.error` for an invalid pattern, `IndexError` from `match.group(1)` when
the pattern has no capture group, `AttributeError` from `None.strip()`
when group 1 did not participate in the match. -/
def extract_field (text field_pattern : String)
    (patterns : Option (List (String × String))) : Except PyErr (Option String) :=
  let pattern :=
    match patterns with
    | some tbl =>
      match tbl.lookup field_pattern with
      | some p => p
      | none => field_pattern
    | none => field_pattern
  match compilePat pattern with
  | .error .invalid => .error .reError
  | .error .unsupported => .error .unmodeled
  | .ok (r, ngroups) =>
    match reSearch r text.data with
    | none => .ok none
    | some (_, caps) =>
      if ngroups < 1 then .error .indexError
      else
        match capLookup caps 1 with
        | some span =>
          .ok (some (String.mk (pyStrip
            ((text.data.drop span.1).take (span.2 - span.1)))))
        | none => .error .attributeError

/-! ## Properties of the decimal renderer -/

theorem natToStrAux_fuel (n : Nat) :
    ∀ f1 f2, n < f1 → n < f2 → natToStrAux f1 n = natToStrAux f2 n := by
  induction n using Nat.strong_induction_on with
  | _ n ih =>
    intro f1 f2 h1 h2
    match f1, f2 with
    | 0, _ => omega
    | _ + 1, 0 => omega
    | g1 + 1, g2 + 1 =>
      simp only [natToStrAux]
      by_cases hn : n < 10
      · simp [hn]
      · simp only [if_neg hn]
        have hd : n / 10 < n := Nat.div_lt_self (by omega) (by omega)
        rw [ih (n / 10) hd g1 g2 (by omega) (by omega)]

/-- Digit characters of small values. -/
theorem digitChr_toNat : ∀ d, d < 10 → (digitChr d).toNat = 48 + d := by decide

/-- Decimal value of a digit string (used only to prove the renderer
injective). -/
def digitsVal (l : List Char) : Nat :=
  l.foldl (fun acc c => 10 * acc + (c.toNat - 48)) 0

theorem digitsVal_append_digit (l : List Char) (c : Char) :
    digitsVal (l ++ [c]) = 10 * digitsVal l + (c.toNat - 48) := by
  simp [digitsVal, List.foldl_append]

theorem digitsVal_natToStrAux (n : Nat) :
    ∀ f, n < f → digitsVal (natToStrAux f n) = n := by
  induction n using Nat.strong_induction_on with
  | _ n ih =>
    intro f hf
    match f with
    | 0 => omega
    | g + 1 =>
      simp only [natToStrAux]
      by_cases hn : n < 10
      · simp [hn, digitsVal, digitChr_toNat n hn]
      · simp only [if_neg hn]
        have hd : n / 10 < n := Nat.div_lt_self (by omega) (by omega)
        rw [digitsVal_append_digit,
          ih (n / 10) hd g (by omega),
          digitChr_toNat (n % 10) (Nat.mod_lt n (by omega))]
        omega

theorem natToStr_injective : Function.Injective natToStr := by
  intro a b h
  have hd : natToStrAux (a + 1) a = natToStrAux (b + 1) b :=
    congrArg String.data h
  have := digitsVal_natToStrAux a (a + 1) (by omega)
  rw [hd, digitsVal_natToStrAux b (b + 1) (by omega)] at this
  omega

theorem natToStrAux_all_digits :
    ∀ f n c, c ∈ natToStrAux f n → 48 ≤ c.toNat ∧ c.toNat ≤ 57 := by
  intro f
  induction f with
  | zero => intro n c hc; simp [natToStrAux] at hc
  | succ g ih =>
    intro n c hc
    simp only [natToStrAux] at hc
    by_cases hn : n < 10
    · simp [hn] at hc
      subst hc
      have := digitChr_toNat n hn
      omega
    · simp [hn] at hc
      rcases hc with hc | hc
      · exact ih _ _ hc
      · subst hc
        have := digitChr_toNat (n % 10) (Nat.mod_lt n (by omega))
        omega

theorem natToStrAux_ne_nil : ∀ f n, n < f → natToStrAux f n ≠ [] := by
  intro f
  match f with
  | 0 => omega
  | g + 1 =>
    intro n _
    simp only [natToStrAux]
    by_cases hn : n < 10
    · simp [hn]
    · simp [hn]

/-! ## Properties of the duplicate-name loop -/

theorem dupName_injective (base : String) :
    Function.Injective (dupName base) := by
  have hcase : ∀ j, dupName base 0 ≠ dupName base (j + 1) := by
    intro j h
    have h10 := congrArg (fun s : String => s.data[10]?) h
    simp only [dupName, String.data_append] at h10
    norm_num [List.getElem?_append_left, String.data] at h10
    exact absurd h10 (by decide)
  intro a b h
  match a, b with
  | 0, 0 => rfl
  | 0, j + 1 => exact absurd h (hcase j)
  | j + 1, 0 => exact absurd h.symm (hcase j)
  | j + 1, k + 1 =>
    simp only [dupName] at h
    have hd : "Duplicate (".data ++ ((natToStr (j + 2)).data ++
        (") - ".data ++ base.data)) = "Duplicate (".data ++
        ((natToStr (k + 2)).data ++ (") - ".data ++ base.data)) := by
      have := congrArg String.data h
      simpa [String.data_append, List.append_assoc] using this
    have hmid := List.append_cancel_left hd
    rw [← List.append_assoc, ← List.append_assoc] at hmid
    have h2 := List.append_cancel_right hmid
    have h3 := List.append_cancel_right h2
    have := natToStr_injective
      (show natToStr (j + 2) = natToStr (k + 2) from congrArg String.mk h3)
    omega

theorem exists_dupName_free (current : List String) (base : String) :
    ∃ k, k ≤ current.length ∧ dupName base k ∉ current := by
  by_contra hcon
  push_neg at hcon
  have hsub : (Finset.range (current.length + 1)).image (dupName base) ⊆
      current.toFinset := by
    intro x hx
    rcases Finset.mem_image.mp hx with ⟨k, hk, rfl⟩
    exact List.mem_toFinset.mpr (hcon k (by
      simpa using Nat.lt_succ_iff.mp (Finset.mem_range.mp hk)))
  have hcard := Finset.card_le_card hsub
  rw [Finset.card_image_of_injective _ (dupName_injective base),
    Finset.card_range] at hcard
  have := List.toFinset_card_le current
  omega

theorem findFreeAux_spec (current : List String) (base : String) :
    ∀ fuel n, (∃ k, n ≤ k ∧ k < n + fuel ∧ dupName base k ∉ current) →
      dupName base (findFreeAux current base n fuel) ∉ current ∧
      n ≤ findFreeAux current base n fuel ∧
      ∀ m, n ≤ m → m < findFreeAux current base n fuel →
        dupName base m ∈ current := by
  intro fuel
  induction fuel with
  | zero =>
    rintro n ⟨k, hk1, hk2, -⟩
    omega
  | succ fuel ih =>
    rintro n ⟨k, hk1, hk2, hk3⟩
    simp only [findFreeAux]
    by_cases hmem : dupName base n ∈ current
    · simp only [if_pos hmem]
      have hkn : n ≠ k := fun he => hk3 (he ▸ hmem)
      obtain ⟨h1, h2, h3⟩ := ih (n + 1) ⟨k, by omega, by omega, hk3⟩
      refine ⟨h1, by omega, fun m hm1 hm2 => ?_⟩
      rcases Nat.eq_or_lt_of_le hm1 with rfl | hlt
      · exact hmem
      · exact h3 m (by omega) hm2
    · simp only [if_neg hmem]
      exact ⟨hmem, Nat.le_refl n, by omega⟩

/-! ## The month tag is never a `"GUK"` reference -/

theorem pad2_head_digit (n : Nat) :
    ∃ c l, (pad2 n).data = c :: l ∧ c.toNat ≤ 57 := by
  unfold pad2
  by_cases hn : n < 10
  · exact ⟨'0', natToStrAux (n + 1) n, by simp only [if_pos hn], by decide⟩
  · simp only [if_neg hn, natToStr]
    cases he : natToStrAux (n + 1) n with
    | nil => exact absurd he (natToStrAux_ne_nil (n + 1) n (by omega))
    | cons c l =>
      refine ⟨c, l, rfl, ?_⟩
      exact (natToStrAux_all_digits (n + 1) n c (he ▸ List.mem_cons_self c l)).2

theorem pyStartsWith_GUK_fmtMMYY (d : Date) (tail : String) :
    pyStartsWith (fmtMMYY d ++ tail) "GUK" = false := by
  obtain ⟨c, l, hdata, hc⟩ := pad2_head_digit d.month
  simp only [pyStartsWith, fmtMMYY, String.data_append, hdata]
  have hne : ('G' == c) = false := by
    have : 'G'.toNat = 71 := by decide
    simp only [beq_eq_false_iff_ne, ne_eq]
    intro he
    rw [← he] at hc
    omega
  simp [List.isPrefixOf, hne]

/-! ## Concrete objects used by the witnesses -/

def exMfc : MFCNames :=
  { id := none, mfc_name := none, friendly_mfc_name := some "F",
    xero_name := none, location_address := none, postcode := none,
    morrisons_id := none, morrisons_postcode := none,
    blakemore_postcode := none, wholegood_postcode := none,
    htdrinks_postcode := none, on_the_rocks_postcode := none }

def exFin : InvoiceFinancials :=
  { net_0 := 100, vat_0 := 0, net_20 := 50, vat_20 := 10 }

def exMetaNum : InvoiceMetadata :=
  ⟨"I1", "12345", "Invoice", some ⟨2025, 9, 30⟩, "2025-09-30",
    "2025-10-07", "2025-09"⟩

def exMetaGUK : InvoiceMetadata :=
  ⟨"I1", "GUK-999", "Invoice", some ⟨2025, 9, 30⟩, "2025-09-30",
    "2025-10-07", "2025-09"⟩

def exMetaBad : InvoiceMetadata :=
  ⟨"I1", "12345", "Invoice", none, "UNKNOWN", "UNKNOWN", "UNKNOWN"⟩

def exBase : String :=
  exMetaNum.generate_standard_filename exMfc exFin ++ ".pdf"

/-! ## The claims -/

/-- Claim C1 (confirmed).  `generate_standard_filename` is a pure function
of the three objects (determinism is definitional for the embedding) and
returns exactly the template string
`"{date} - {short_vendor_name} - {friendly_mfc_name or UnknownMFC} -
{invoice_no or UnknownInvoice}{po_suffix} - £{total_gross:.2f}"`,
where the date part prefers the originally-parsed date (`YY.MM.DD`), falls
back to re-parsing the canonical `invoice_date`, then to
`"unknown-date"`; and the PO suffix is `" - {po_reference}"` exactly when
`po_reference` starts with `"GUK"`, empty otherwise (second conjunct). -/
theorem C1_generate_standard_filename (m : InvoiceMetadata) (mfc : MFCNames)
    (financials : InvoiceFinancials) :
    m.generate_standard_filename mfc financials =
      (match m.original_invoice_date with
       | some d => fmtYYMMDD d
       | none =>
         match strptimeISO m.invoice_date with
         | some d => fmtYYMMDD d
         | none => "unknown-date") ++ " - " ++ short_vendor_name ++ " - " ++
      orDefault mfc.friendly_mfc_name "UnknownMFC" ++ " - " ++
      (if m.invoice_no = "" then "UnknownInvoice" else m.invoice_no) ++
      (if pyStartsWith m.po_reference "GUK" then " - " ++ m.po_reference
       else "") ++
      " - " ++ ("£" ++ fmtFixed2 financials.total_gross) ∧
    ((if pyStartsWith m.po_reference "GUK" then " - " ++ m.po_reference
      else "") = "" ↔ pyStartsWith m.po_reference "GUK" = false) := by
  constructor
  · rfl
  · by_cases hp : pyStartsWith m.po_reference "GUK"
    · simp only [hp, if_pos]
      constructor
      · intro h
        have := congrArg String.data h
        simp [String.data_append] at this
      · intro h
        simp [hp] at h
    · simp [hp]

/-- Claim C3 (confirmed).  Construction tries the four date formats in
order, stopping at the first success (third conjunct, which is the
definition of the format cascade); on success the canonical fields are the
ISO form of the parsed date, the ISO form of that date plus exactly 7
days, and its `YYYY-MM` form, with the parsed date retained; on failure
nothing is raised (the embedding is total) and the three derived fields
are `"UNKNOWN"` with no original date. -/
theorem C3_init_date_parsing (invoice_no s po_reference invoice_type : String) :
    (∀ d, tryParseInvoiceDate s = some d →
      InvoiceMetadata.init invoice_no s po_reference invoice_type =
        { invoice_no := invoice_no, po_reference := po_reference,
          invoice_type := invoice_type, original_invoice_date := some d,
          invoice_date := fmtISO d, due_date := fmtISO (addDays d 7),
          po_month := fmtYM d }) ∧
    (tryParseInvoiceDate s = none →
      InvoiceMetadata.init invoice_no s po_reference invoice_type =
        { invoice_no := invoice_no, po_reference := po_reference,
          invoice_type := invoice_type, original_invoice_date := none,
          invoice_date := "UNKNOWN", due_date := "UNKNOWN",
          po_month := "UNKNOWN" }) ∧
    tryParseInvoiceDate s =
      ((strptimeWith parseYMD s).orElse fun _ =>
        (strptimeWith parseDMY s).orElse fun _ =>
          (strptimeWith (parseDNameY abbrMonths) s).orElse fun _ =>
            strptimeWith (parseDNameY fullMonths) s) := by
  refine ⟨?_, ?_, rfl⟩
  · intro d h
    simp only [InvoiceMetadata.init, h]
  · intro h
    simp only [InvoiceMetadata.init, h]

/-- Witness for C3 at the concrete input `"2021-03-15"`. -/
theorem C3_init_date_parsing_witness :
    InvoiceMetadata.init "I" "2021-03-15" "p" "t" =
      { invoice_no := "I", po_reference := "p", invoice_type := "t",
        original_invoice_date := some ⟨2021, 3, 15⟩,
        invoice_date := fmtISO ⟨2021, 3, 15⟩,
        due_date := fmtISO (addDays ⟨2021, 3, 15⟩ 7),
        po_month := fmtYM ⟨2021, 3, 15⟩ } :=
  (C3_init_date_parsing "I" "2021-03-15" "p" "t").1 ⟨2021, 3, 15⟩ (by decide)

/-- Claim C4 (confirmed).  When the canonical `invoice_date` re-parses,
`adjust_invoice_date_if_overdue` sets `po_month` to its `MM/YY` form
unconditionally; when the parsed date is strictly before the first of the
current month minus 3 days it rewrites `invoice_date` to the first of the
current month and `po_reference` to the two-line
`"<MM/YY> invoice\n<old>"` form when the old reference starts with
`"GUK"`, to exactly `"<MM/YY> invoice"` otherwise; and otherwise leaves
`invoice_date` and `po_reference` unchanged. -/
theorem C4_adjust_overdue (m : InvoiceMetadata) (today d : Date)
    (h : strptimeISO m.invoice_date = some d) :
    (m.adjust_invoice_date_if_overdue today).po_month = fmtMMYY d ∧
    (dateLt d (subDays (firstOfMonth today) 3) →
      (m.adjust_invoice_date_if_overdue today).invoice_date =
        fmtISO (firstOfMonth today) ∧
      (pyStartsWith m.po_reference "GUK" = true →
        (m.adjust_invoice_date_if_overdue today).po_reference =
          fmtMMYY d ++ " invoice\n" ++ m.po_reference) ∧
      (pyStartsWith m.po_reference "GUK" = false →
        (m.adjust_invoice_date_if_overdue today).po_reference =
          fmtMMYY d ++ " invoice")) ∧
    (¬ dateLt d (subDays (firstOfMonth today) 3) →
      (m.adjust_invoice_date_if_overdue today).invoice_date =
        m.invoice_date ∧
      (m.adjust_invoice_date_if_overdue today).po_reference =
        m.po_reference) := by
  by_cases hlt : dateLt d (subDays (firstOfMonth today) 3)
  · by_cases hp : pyStartsWith m.po_reference "GUK"
    · simp [InvoiceMetadata.adjust_invoice_date_if_overdue, h, hlt, hp,
        String.append_assoc]
    · simp [InvoiceMetadata.adjust_invoice_date_if_overdue, h, hlt, hp]
  · simp [InvoiceMetadata.adjust_invoice_date_if_overdue, h, hlt]

/-- Witness for C4: an overdue non-GUK reference at a concrete today. -/
theorem C4_adjust_overdue_witness :
    (exMetaNum.adjust_invoice_date_if_overdue ⟨2025, 11, 7⟩).invoice_date =
      fmtISO (firstOfMonth ⟨2025, 11, 7⟩) :=
  ((C4_adjust_overdue exMetaNum ⟨2025, 11, 7⟩ ⟨2025, 9, 30⟩
    (by decide)).2.1 (by decide)).1

/-- Claim C5 (confirmed).  On the state space of the spec's data model the
only failure point inside the `try` block of
`adjust_invoice_date_if_overdue` is the very first statement, the re-parse
of `invoice_date` (for example when it is the `"UNKNOWN"` sentinel); the
embedded handler then sets `po_month := "UNKNOWN"`, nothing propagates
(the embedding is a total function), and every other field is exactly as
before the call. -/
theorem C5_adjust_exception_frame (m : InvoiceMetadata) (today : Date)
    (h : strptimeISO m.invoice_date = none) :
    (m.adjust_invoice_date_if_overdue today).po_month = "UNKNOWN" ∧
    (m.adjust_invoice_date_if_overdue today).invoice_no = m.invoice_no ∧
    (m.adjust_invoice_date_if_overdue today).invoice_date = m.invoice_date ∧
    (m.adjust_invoice_date_if_overdue today).due_date = m.due_date ∧
    (m.adjust_invoice_date_if_overdue today).po_reference = m.po_reference ∧
    (m.adjust_invoice_date_if_overdue today).invoice_type = m.invoice_type ∧
    (m.adjust_invoice_date_if_overdue today).original_invoice_date =
      m.original_invoice_date := by
  simp [InvoiceMetadata.adjust_invoice_date_if_overdue, h]

/-- Witness for C5 at the degraded state (`invoice_date = "UNKNOWN"`). -/
theorem C5_adjust_exception_frame_witness :
    (exMetaBad.adjust_invoice_date_if_overdue ⟨2025, 11, 7⟩).po_month =
      "UNKNOWN" ∧
    (exMetaBad.adjust_invoice_date_if_overdue ⟨2025, 11, 7⟩).po_reference =
      exMetaBad.po_reference :=
  ⟨(C5_adjust_exception_frame exMetaBad ⟨2025, 11, 7⟩ (by decide)).1,
   (C5_adjust_exception_frame exMetaBad ⟨2025, 11, 7⟩ (by decide)).2.2.2.2.1⟩

/-- Claim C2 (confirmed).  `check_existing_filename` returns the base
filename (standard filename plus `".pdf"`) unmodified with duplicate flag
`false` when it is absent from the destination folder; when it is present
it returns flag `true` together with the first name of the sequence
`"Duplicate - {base}", "Duplicate (2) - {base}", "Duplicate (3) - {base}",
…` that is free in the working folder — every earlier name of the sequence
is occupied (so numbers increase monotonically and are never reused), and
in particular the un-numbered `"Duplicate - {base}"` is returned whenever
it is itself free. -/
theorem C2_check_existing_filename (metadata : InvoiceMetadata)
    (financials : InvoiceFinancials) (matched_mfc : MFCNames)
    (dest cur : List String) :
    (dupName (metadata.generate_standard_filename matched_mfc financials ++
        ".pdf") 0 =
      "Duplicate - " ++
        (metadata.generate_standard_filename matched_mfc financials ++
          ".pdf")) ∧
    (∀ k, dupName (metadata.generate_standard_filename matched_mfc
        financials ++ ".pdf") (k + 1) =
      "Duplicate (" ++ natToStr (k + 2) ++ ") - " ++
        (metadata.generate_standard_filename matched_mfc financials ++
          ".pdf")) ∧
    (metadata.generate_standard_filename matched_mfc financials ++ ".pdf" ∉
        dest →
      check_existing_filename metadata financials matched_mfc dest cur =
        (metadata.generate_standard_filename matched_mfc financials ++
          ".pdf", false)) ∧
    (metadata.generate_standard_filename matched_mfc financials ++ ".pdf" ∈
        dest →
      (check_existing_filename metadata financials matched_mfc dest cur).2 =
        true ∧
      (∃ n,
        (check_existing_filename metadata financials matched_mfc dest
          cur).1 =
          dupName (metadata.generate_standard_filename matched_mfc
            financials ++ ".pdf") n ∧
        dupName (metadata.generate_standard_filename matched_mfc
          financials ++ ".pdf") n ∉ cur ∧
        ∀ k, k < n →
          dupName (metadata.generate_standard_filename matched_mfc
            financials ++ ".pdf") k ∈ cur) ∧
      (dupName (metadata.generate_standard_filename matched_mfc
          financials ++ ".pdf") 0 ∉ cur →
        (check_existing_filename metadata financials matched_mfc dest
          cur).1 =
          dupName (metadata.generate_standard_filename matched_mfc
            financials ++ ".pdf") 0)) := by
  set base := metadata.generate_standard_filename matched_mfc financials ++
    ".pdf" with hbase
  refine ⟨by simp [dupName], fun k => by simp [dupName], ?_, ?_⟩
  · intro hmem
    simp [check_existing_filename, hmem, hbase]
  · intro hmem
    obtain ⟨k0, hk0le, hk0free⟩ := exists_dupName_free cur base
    obtain ⟨hfree, -, hmin⟩ := findFreeAux_spec cur base (cur.length + 1) 0
      ⟨k0, Nat.zero_le k0, by omega, hk0free⟩
    have hr : check_existing_filename metadata financials matched_mfc dest
        cur = (resolveDuplicate cur base, true) := by
      simp [check_existing_filename, hmem, hbase]
    refine ⟨by simp [hr], ?_, ?_⟩
    · refine ⟨findFreeAux cur base 0 (cur.length + 1), by
        simp [hr, resolveDuplicate], hfree, fun k hk => ?_⟩
      exact hmin k (Nat.zero_le k) hk
    · intro h0
      have hz : findFreeAux cur base 0 (cur.length + 1) = 0 := by
        by_contra hnz
        exact h0 (hmin 0 (Nat.le_refl 0) (by omega))
      simp [hr, resolveDuplicate, hz]

/-- Witness for C2: a destination folder already containing the base name
and an empty working folder. -/
theorem C2_check_existing_filename_witness :
    (check_existing_filename exMetaNum exFin exMfc [exBase] []).2 = true ∧
    (check_existing_filename exMetaNum exFin exMfc [exBase] []).1 =
      "Duplicate - " ++ exBase :=
  ⟨((C2_check_existing_filename exMetaNum exFin exMfc [exBase] []).2.2.2
      (List.mem_singleton_self exBase)).1,
   by
    have h := ((C2_check_existing_filename exMetaNum exFin exMfc [exBase]
      []).2.2.2 (List.mem_singleton_self exBase)).2.2
      (by simp)
    simpa [dupName] using h⟩

/-- Claim C6 (confirmed).  `clean_currency` is total in the embedding
(every Lean function is); numeric input is returned as a float unchanged;
`None`, the empty string and non-string non-numeric input give `0.0`;
string input is cleaned of `£` signs and commas and stripped of
surrounding whitespace, then parsed as a Python float (so
`clean_currency("£1,234.56") = 1234.56`); a string whose cleaned form
still fails to parse (such as `"garbage"`) gives `0.0`. -/
theorem C6_clean_currency :
    (∀ q, clean_currency (.num q) = .finite q) ∧
    clean_currency .pynone = .finite 0 ∧
    clean_currency .other = .finite 0 ∧
    clean_currency (.str "") = .finite 0 ∧
    (∀ s v, s ≠ "" →
      pyFloatParse (pyStrip (removeChar ',' (removeChar '£' s.data))) =
        some v →
      clean_currency (.str s) = v) ∧
    (∀ s, pyFloatParse (pyStrip (removeChar ',' (removeChar '£' s.data))) =
        none →
      clean_currency (.str s) = .finite 0) ∧
    clean_currency (.str "£1,234.56") = .finite (1234.56 : ℚ) ∧
    clean_currency (.str "garbage") = .finite 0 := by
  refine ⟨fun q => rfl, rfl, rfl, rfl, ?_, ?_, ?_, by rfl⟩
  · intro s v hs hp
    simp [clean_currency, hs, hp]
  · intro s hp
    by_cases hs : s = ""
    · simp [clean_currency, hs]
    · simp [clean_currency, hs, hp]
  · have h1 : clean_currency (.str "£1,234.56") =
        .finite (((1234 : ℕ) : ℚ) + ((56 : ℕ) : ℚ) / 10 ^ (2 : ℕ)) := rfl
    rw [h1]
    norm_num

/-- Witness for C6: the parse-failure clause applied at `"xyz"`. -/
theorem C6_clean_currency_witness :
    clean_currency (.str "xyz") = .finite 0 :=
  C6_clean_currency.2.2.2.2.2.1 "xyz" (by decide)

/-- Claim C7 (confirmed).  `validate_totals(tolerance)` records a boolean
`abs(computed − expected) ≤ tolerance` for exactly those expected totals
that were supplied, and `is_valid` is the conjunction of the recorded
checks, vacuously `true` when none were supplied.  On
`InvoiceFinancials(net_0 := 100, vat_0 := 0, net_20 := 50, vat_20 := 10)`
the computed totals are `150`, `10` and `160`, and with tolerance `0.01`
an expected gross of `160` matches while `161` does not. -/
theorem C7_validate_totals (f : InvoiceFinancials) (tol : ℚ) :
    ((∀ e, f.expected_net_total = some e →
        (f.validate_totals tol).net_match =
          some (decide (|f.total_net - e| ≤ tol))) ∧
      (f.expected_net_total = none →
        (f.validate_totals tol).net_match = none)) ∧
    ((∀ e, f.expected_vat_total = some e →
        (f.validate_totals tol).vat_match =
          some (decide (|f.total_vat - e| ≤ tol))) ∧
      (f.expected_vat_total = none →
        (f.validate_totals tol).vat_match = none)) ∧
    ((∀ e, f.expected_gross_total = some e →
        (f.validate_totals tol).gross_match =
          some (decide (|f.total_gross - e| ≤ tol))) ∧
      (f.expected_gross_total = none →
        (f.validate_totals tol).gross_match = none)) ∧
    f.is_valid =
      ((f.validate_totals (1 / 100)).net_match.getD true &&
        (f.validate_totals (1 / 100)).vat_match.getD true &&
        (f.validate_totals (1 / 100)).gross_match.getD true) ∧
    (f.expected_net_total = none → f.expected_vat_total = none →
      f.expected_gross_total = none → f.is_valid = true) ∧
    (exFin.total_net = 150 ∧ exFin.total_vat = 10 ∧
      exFin.total_gross = 160) ∧
    ({ exFin with expected_gross_total := some 160 }.validate_totals
        (1 / 100)).gross_match = some true ∧
    ({ exFin with expected_gross_total := some 161 }.validate_totals
        (1 / 100)).gross_match = some false := by
  refine ⟨⟨fun e he => by simp [InvoiceFinancials.validate_totals, he],
      fun he => by simp [InvoiceFinancials.validate_totals, he]⟩,
    ⟨fun e he => by simp [InvoiceFinancials.validate_totals, he],
      fun he => by simp [InvoiceFinancials.validate_totals, he]⟩,
    ⟨fun e he => by simp [InvoiceFinancials.validate_totals, he],
      fun he => by simp [InvoiceFinancials.validate_totals, he]⟩,
    rfl, ?_, ?_, ?_, ?_⟩
  · intro h1 h2 h3
    simp [InvoiceFinancials.is_valid, InvoiceFinancials.validate_totals,
      h1, h2, h3]
  · refine ⟨?_, ?_, ?_⟩ <;>
      norm_num [exFin, InvoiceFinancials.total_net,
        InvoiceFinancials.total_vat, InvoiceFinancials.total_gross]
  · simp only [InvoiceFinancials.validate_totals, Option.map_some]
    norm_num [exFin, InvoiceFinancials.total_gross,
      InvoiceFinancials.total_net, InvoiceFinancials.total_vat]
  · simp only [InvoiceFinancials.validate_totals, Option.map_some]
    norm_num [exFin, InvoiceFinancials.total_gross,
      InvoiceFinancials.total_net, InvoiceFinancials.total_vat]

/-- Witness for C7: the gross clause applied at a concrete financials
value. -/
theorem C7_validate_totals_witness :
    ({ exFin with expected_gross_total := some 160 }.validate_totals
        (1 / 100)).gross_match =
      some (decide
        (|({ exFin with expected_gross_total := some 160} :
            InvoiceFinancials).total_gross - 160| ≤ (1 : ℚ) / 100)) :=
  (C7_validate_totals { exFin with expected_gross_total := some 160 }
    (1 / 100)).2.2.1.1 160 rfl

/-- Claim C8 counterexample: the pattern `"x"` is a valid regular
expression with no capture group; it matches the text `"x"`, and
`match.group(1)` then raises `IndexError` — so `extract_field` does not
"never raise". -/
theorem C8_extract_field_counterexample :
    extract_field "x" "x" none = .error .indexError := rfl

/-- Claim C8 (corrected).  The amended contract: the pattern is resolved
from the table when the key is present, otherwise the key itself is the
pattern; matching is case-insensitive; when no match is found the explicit
not-found value (`None`) is returned; when a match is found and group 1
captured, the capture trimmed of surrounding whitespace is returned; but
when a matching pattern has no capture group, `IndexError` escapes
(`extract_field` is not exception-free). -/
theorem C8_extract_field_amended :
    (∀ text key p tbl, tbl.lookup key = some p →
      extract_field text key (some tbl) = extract_field text p none) ∧
    (∀ text key tbl, tbl.lookup key = none →
      extract_field text key (some tbl) = extract_field text key none) ∧
    (∀ text pat r ng, compilePat pat = .ok (r, ng) →
      reSearch r text.data = none → extract_field text pat none = .ok none) ∧
    (∀ text pat r ng p caps s e, compilePat pat = .ok (r, ng) → 1 ≤ ng →
      reSearch r text.data = some (p, caps) →
      capLookup caps 1 = some (s, e) →
      extract_field text pat none =
        .ok (some (String.mk (pyStrip ((text.data.drop s).take (e - s)))))) ∧
    (∀ text pat r p caps, compilePat pat = .ok (r, 0) →
      reSearch r text.data = some (p, caps) →
      extract_field text pat none = .error .indexError) ∧
    extract_field "Total: ABC" "total: (abc)" none = .ok (some "ABC") := by
  refine ⟨?_, ?_, ?_, ?_, ?_, rfl⟩
  · intro text key p tbl h
    simp [extract_field, h]
  · intro text key tbl h
    simp [extract_field, h]
  · intro text pat r ng hc hs
    simp [extract_field, hc, hs]
  · intro text pat r ng p caps s e hc hng hs hcap
    simp [extract_field, hc, hs, hcap, Nat.not_lt.mpr hng]
  · intro text pat r p caps hc hs
    simp [extract_field, hc, hs]

/-- The compiled form of the pattern `"(zzz)"`, used by the C8 witness. -/
def exReg : Reg :=
  .seq (.grp 1 (.seq (.ch 'z') (.seq (.ch 'z') (.seq (.ch 'z') .eps)))) .eps

/-- Witness for the amended C8: the no-match clause at a concrete text and
pattern. -/
theorem C8_extract_field_amended_witness :
    extract_field "hello" "(zzz)" none = .ok none :=
  C8_extract_field_amended.2.2.1 "hello" "(zzz)" exReg 1 rfl rfl

/-- A location-directory row with exactly the twelve specified columns
(including `WHOLEGOOD_POSTCODE`). -/
def exRow : List (String × String) :=
  [("ID", "7"), ("LOCATION_NAME", "Acton"),
   ("FRIENDLY_LOCATION_NAME", "Acton MFC"), ("XERO_NAME", "Acton (X)"),
   ("LOCATION_ADDRESS", "1 High St"), ("POSTCODE", "W3 1AA"),
   ("MORRISONS_ID", "M1"), ("MORRISONS_POSTCODE", "W3 2BB"),
   ("BLAKEMORE_POSTCODE", "W3 3CC"), ("WHOLEGOOD_POSTCODE", "W3 4DD"),
   ("HTDRINKS_POSTCODE", "W3 5EE"), ("ONTHEROCKS_POSTCODE", "W3 6FF")]

/-- Claim C9 (code bug).  Eleven of the twelve attributes are read from
exactly the specified columns, but the `wholegood_postcode` attribute is
read from the misspelled key `"WHOLEOOD_POSTCODE"` — on a row carrying the
specified `WHOLEGOOD_POSTCODE` column the attribute is `None` instead of
the column's value. -/
theorem C9_mfc_wholegood_bug :
    (∀ row : List (String × String),
      (MFCNames.init row).id = row.lookup "ID" ∧
      (MFCNames.init row).mfc_name = row.lookup "LOCATION_NAME" ∧
      (MFCNames.init row).friendly_mfc_name =
        row.lookup "FRIENDLY_LOCATION_NAME" ∧
      (MFCNames.init row).xero_name = row.lookup "XERO_NAME" ∧
      (MFCNames.init row).location_address = row.lookup "LOCATION_ADDRESS" ∧
      (MFCNames.init row).postcode = row.lookup "POSTCODE" ∧
      (MFCNames.init row).morrisons_id = row.lookup "MORRISONS_ID" ∧
      (MFCNames.init row).morrisons_postcode =
        row.lookup "MORRISONS_POSTCODE" ∧
      (MFCNames.init row).blakemore_postcode =
        row.lookup "BLAKEMORE_POSTCODE" ∧
      (MFCNames.init row).htdrinks_postcode = row.lookup "HTDRINKS_POSTCODE" ∧
      (MFCNames.init row).on_the_rocks_postcode =
        row.lookup "ONTHEROCKS_POSTCODE" ∧
      (MFCNames.init row).wholegood_postcode =
        row.lookup "WHOLEOOD_POSTCODE") ∧
    exRow.lookup "WHOLEGOOD_POSTCODE" = some "W3 4DD" ∧
    exRow.lookup "WHOLEOOD_POSTCODE" = none ∧
    (MFCNames.init exRow).wholegood_postcode = none := by
  refine ⟨?_, by decide, by decide, by decide⟩
  intro row
  refine ⟨rfl, rfl, rfl, rfl, rfl, rfl, rfl, rfl, rfl, rfl, rfl, rfl⟩

/-- Claim C10 (confirmed).  Whenever the overdue rewrite fires, the new
`po_reference` is the month tag `"<MM/YY> invoice"` alone or followed by a
newline and the old reference; either way it starts with the month tag
(whose first character is a digit), hence no longer with `"GUK"`, so every
later `generate_standard_filename` call omits the PO suffix. -/
theorem C10_adjust_suppresses_po_suffix (m : InvoiceMetadata)
    (today d : Date) (h : strptimeISO m.invoice_date = some d)
    (hlt : dateLt d (subDays (firstOfMonth today) 3)) :
    ((m.adjust_invoice_date_if_overdue today).po_reference =
        fmtMMYY d ++ " invoice" ∨
      (m.adjust_invoice_date_if_overdue today).po_reference =
        fmtMMYY d ++ " invoice\n" ++ m.po_reference) ∧
    pyStartsWith (m.adjust_invoice_date_if_overdue today).po_reference
      (fmtMMYY d ++ " invoice") = true ∧
    pyStartsWith (m.adjust_invoice_date_if_overdue today).po_reference
      "GUK" = false ∧
    ∀ (mfc : MFCNames) (financials : InvoiceFinancials),
      (m.adjust_invoice_date_if_overdue today).generate_standard_filename
          mfc financials =
        (match (m.adjust_invoice_date_if_overdue
            today).original_invoice_date with
         | some d2 => fmtYYMMDD d2
         | none =>
           match strptimeISO
               (m.adjust_invoice_date_if_overdue today).invoice_date with
           | some d2 => fmtYYMMDD d2
           | none => "unknown-date") ++ " - " ++ short_vendor_name ++
        " - " ++ orDefault mfc.friendly_mfc_name "UnknownMFC" ++ " - " ++
        (if (m.adjust_invoice_date_if_overdue today).invoice_no = "" then
          "UnknownInvoice"
         else (m.adjust_invoice_date_if_overdue today).invoice_no) ++
        " - " ++ ("£" ++ fmtFixed2 financials.total_gross) := by
  have hpo : (m.adjust_invoice_date_if_overdue today).po_reference =
      fmtMMYY d ++ " invoice" ∨
      (m.adjust_invoice_date_if_overdue today).po_reference =
      fmtMMYY d ++ " invoice\n" ++ m.po_reference := by
    by_cases hp : pyStartsWith m.po_reference "GUK"
    · right
      simp [InvoiceMetadata.adjust_invoice_date_if_overdue, h, hlt, hp,
        String.append_assoc]
    · left
      simp [InvoiceMetadata.adjust_invoice_date_if_overdue, h, hlt, hp]
  have htag : pyStartsWith
      (m.adjust_invoice_date_if_overdue today).po_reference
      (fmtMMYY d ++ " invoice") = true := by
    rcases hpo with hpo | hpo <;> rw [hpo] <;>
      simp only [pyStartsWith, String.data_append,
        List.isPrefixOf_iff_prefix]
    · exact List.prefix_refl _
    · have hre : (fmtMMYY d).data ++
          [' ', 'i', 'n', 'v', 'o', 'i', 'c', 'e', '\n'] ++
          m.po_reference.data =
          ((fmtMMYY d).data ++ [' ', 'i', 'n', 'v', 'o', 'i', 'c', 'e']) ++
            (['\n'] ++ m.po_reference.data) := by
        simp
      rw [hre]
      exact List.prefix_append _ _
  have hguk : pyStartsWith
      (m.adjust_invoice_date_if_overdue today).po_reference "GUK" =
      false := by
    rcases hpo with hpo | hpo <;> rw [hpo]
    · exact pyStartsWith_GUK_fmtMMYY d " invoice"
    · rw [String.append_assoc]
      exact pyStartsWith_GUK_fmtMMYY d (" invoice\n" ++ m.po_reference)
  refine ⟨hpo, htag, hguk, fun mfc financials => ?_⟩
  simp only [InvoiceMetadata.generate_standard_filename, hguk,
    Bool.false_eq_true, if_false, String.append_empty]

/-- Witness for C10: the concrete overdue GUK reference. -/
theorem C10_adjust_suppresses_po_suffix_witness :
    pyStartsWith
      ((exMetaGUK.adjust_invoice_date_if_overdue ⟨2025, 11, 7⟩)).po_reference
      "GUK" = false :=
  (C10_adjust_suppresses_po_suffix exMetaGUK ⟨2025, 11, 7⟩ ⟨2025, 9, 30⟩
    (by decide) (by decide)).2.2.1

end BGT
